import Mathlib

/-!
Shallow embedding of `src/scripts/update-docs.js` (a documentation-mirror
pipeline: sitemap fetch → navigation scrape → categorized download → README
index generation), together with theorems settling the specification claims.

The network and the filesystem are modelled as explicit oracles
(`Except`-valued functions); the pure computations (slug derivation, URL
filtering, category lookup, path computation, README text) are translated
function-by-function from the source.
-/

namespace UpdateDocs

/-- Configuration constant from the source (line 11): the URL path filter. -/
def URL_PREFIX : String := "https://docs.anthropic.com/en/docs/claude-code/"

/-- Configuration constant from the source (line 12): site base origin. -/
def BASE_URL : String := "https://docs.anthropic.com"

/-- Configuration constant from the source (line 13): output directory. -/
def DOCS_DIR : String := "docs"

/-- Configuration constant from the source (line 14): root index file. -/
def ROOT_README_PATH : String := "README.md"

/-- Membership in the JavaScript regex class `\s` (as used by
`replace(/\s+/g, '-')` and `String.prototype.trim`): tab, line feed,
vertical tab, form feed, carriage return, space, NBSP, Ogham space mark,
the U+2000–U+200A range, line/paragraph separators, narrow NBSP,
medium mathematical space, ideographic space, BOM. -/
def isJsWs (c : Char) : Bool :=
  let n := c.toNat
  n == 9 || n == 10 || n == 11 || n == 12 || n == 13 || n == 32 ||
  n == 160 || n == 5760 ||
  n == 8192 || n == 8193 || n == 8194 || n == 8195 || n == 8196 ||
  n == 8197 || n == 8198 || n == 8199 || n == 8200 || n == 8201 ||
  n == 8202 || n == 8232 || n == 8233 || n == 8239 || n == 8287 ||
  n == 12288 || n == 65279

/-- ASCII case mapping of `String.prototype.toLowerCase()` (the source only
ever feeds it ASCII titles): `A`–`Z` map to `a`–`z`, everything else fixed. -/
def jsToLowerChar (c : Char) : Char :=
  if 65 ≤ c.toNat ∧ c.toNat ≤ 90 then Char.ofNat (c.toNat + 32) else c

/-- Characters kept by the second replace of `slugify`:
the class `[a-z0-9-]` (line 17). -/
def isKeepChar (c : Char) : Bool :=
  decide ((97 ≤ c.toNat ∧ c.toNat ≤ 122) ∨ (48 ≤ c.toNat ∧ c.toNat ≤ 57) ∨
    c.toNat = 45)

/-- One pass of `replace(/\s+/g, '-')`: every maximal run of `\s` characters
becomes a single `-`. The boolean records whether the previous character was
part of a whitespace run. -/
def collapseGo : Bool → List Char → List Char
  | _, [] => []
  | prevWs, c :: cs =>
    if isJsWs c then
      if prevWs then collapseGo true cs else '-' :: collapseGo true cs
    else c :: collapseGo false cs

/-- Replacement of every maximal whitespace run by one hyphen. -/
def collapseWs (cs : List Char) : List Char := collapseGo false cs

/-- Translation of `slugify` (line 17):
`text.toLowerCase().replace(/\s+/g, '-').replace(/[^a-z0-9-]/g, '')`. -/
def slugify (text : String) : String :=
  String.mk (List.filter isKeepChar (collapseWs (text.data.map jsToLowerChar)))

/-- Translation of `String.prototype.trim()`: strip `\s` characters from both
ends. -/
def jsTrim (s : String) : String :=
  String.mk (((s.data.dropWhile isJsWs).reverse.dropWhile isJsWs).reverse)

/-- Translation of Node's POSIX `path.basename`: the last path segment,
ignoring trailing slashes (`basename "a/b/" = "b"`, `basename "///" = "/"`,
`basename "" = ""`). -/
def basename (p : String) : String :=
  let rev := p.data.reverse
  let rev' := rev.dropWhile (fun c => c == '/')
  if rev'.isEmpty then
    if p.data.isEmpty then "" else "/"
  else String.mk ((rev'.takeWhile (fun c => c != '/')).reverse)

/-- Translation of `String.prototype.startsWith`. -/
def jsStartsWith (s pat : String) : Bool := List.isPrefixOf pat.data s.data

/-- Pure core of `fetchAllUrlsFromSitemap` (lines 41–50): given the list of
`<url><loc>` values extracted from the parsed sitemap XML (in document
order), keep exactly those starting with the fixed URL path filter. -/
def fetchAllUrlsFromSitemap (locs : List String) : List String :=
  locs.filter (fun url => jsStartsWith url URL_PREFIX)

/-- A link inside a category's navigation list (`ul#sidebar-group li a`):
its `href` attribute (absent ↦ `none`) and its text content. -/
structure NavLink where
  href : Option String
  text : String
deriving Repr, DecidableEq

/-- A top-level sidebar group (`#navigation-items > div`): the text of its
`h5#sidebar-title` heading (empty when the heading is missing) and its
links in DOM order. -/
structure NavGroup where
  titleText : String
  links : List NavLink
deriving Repr, DecidableEq

/-- A file reference extracted from a navigation link (lines 76–77). -/
structure FileRef where
  slug : String
  title : String
  href : String
deriving Repr, DecidableEq

/-- A category extracted from a sidebar group (lines 66–70). -/
structure Category where
  title : String
  slug : String
  files : List FileRef
deriving Repr, DecidableEq

/-- An entry of the fallback "others" bucket (line 109). -/
structure OtherFile where
  slug : String
  title : String
deriving Repr, DecidableEq

/-- Translation of the per-link body (lines 72–79): a link with a present,
non-empty `href` (JavaScript's `if (href)` is falsy on both `undefined` and
`""`) yields `{slug: basename href, title: text.trim(), href: BASE_URL + href}`;
any other link is dropped. -/
def fileRefOfLink (l : NavLink) : Option FileRef :=
  match l.href with
  | none => none
  | some h =>
    if h = "" then none
    else some { slug := basename h, title := jsTrim l.text, href := BASE_URL ++ h }

/-- Translation of the per-group body (lines 61–81): a group whose trimmed
heading text is empty is skipped (`if (!categoryTitle) return`); otherwise it
becomes a category with the trimmed title, its slug, and its extracted links. -/
def buildCategory (g : NavGroup) : Option Category :=
  let t := jsTrim g.titleText
  if t = "" then none
  else some { title := t, slug := slugify t, files := g.links.filterMap fileRefOfLink }

/-- Pure core of `fetchNavigationStructure` (lines 55–85): map the parsed
sidebar groups (in DOM order) to categories, skipping title-less groups. -/
def fetchNavigationStructure (groups : List NavGroup) : List Category :=
  groups.filterMap buildCategory

/-- Translation of `category.files.some((file) => file.href === url)`
(line 99). -/
def matchesUrl (url : String) (c : Category) : Bool :=
  c.files.any (fun file => file.href == url)

/-- Translation of the category-lookup loop with `break` (lines 97–103, 106–107):
the slug of the first category containing an exactly matching `href`, or the
literal `"others"` when none matches. -/
def categorySlugFor (nav : List Category) (url : String) : String :=
  match nav.find? (matchesUrl url) with
  | some c => c.slug
  | none => "others"

/-- Translation of `path.join(DOCS_DIR, categorySlug)` (line 113). -/
def dirPathFor (nav : List Category) (url : String) : String :=
  DOCS_DIR ++ "/" ++ categorySlugFor nav url

/-- Translation of `path.join(dirPath, fileSlug + '.md')` (lines 105, 114). -/
def targetPath (nav : List Category) (url : String) : String :=
  dirPathFor nav url ++ "/" ++ basename url ++ ".md"

/-- Translation of the `otherFiles` update in one loop iteration
(lines 106–111): a matched URL leaves the collection unchanged; an unmatched
URL appends `{slug, title: slug}` (slug = the URL's basename) unless an entry
with that slug is already present. -/
def stepOther (nav : List Category) (acc : List OtherFile) (url : String) :
    List OtherFile :=
  if (nav.find? (matchesUrl url)).isSome then acc
  else
    let fileSlug := basename url
    if acc.any (fun f => f.slug == fileSlug) then acc
    else acc ++ [{ slug := fileSlug, title := fileSlug }]

/-- The `otherFiles` collection produced by the loop of `downloadAndSaveDocs`
over the whole URL list. -/
def collectOtherFiles (nav : List Category) (urls : List String) :
    List OtherFile :=
  urls.foldl (stepOther nav) []

/-- The error line logged by the per-download `.catch` handler (line 123). -/
def logFail (url msg : String) : String :=
  "   ! Failed to download " ++ url ++ ": " ++ msg

/-- Observable outcome of `downloadAndSaveDocs`: the files written (path and
verbatim body), the error lines logged by the per-download catch handlers,
and the accumulated `otherFiles` collection. Completion order of the
concurrent writes is not modelled; the lists are in URL order. -/
structure DownloadOutcome where
  writes : List (String × String) := []
  errLog : List String := []
  otherFiles : List OtherFile := []
deriving Repr, DecidableEq

/-- One iteration of the loop of `downloadAndSaveDocs` (lines 95–125)
together with the eventual settlement of the promise it pushes
(lines 119–124): the URL's category is resolved and `otherFiles` updated;
then `GET url + ".md"` is attempted, on success the body is written to the
target path, and any failure of either step is caught and logged. -/
def processUrl (nav : List Category) (fetch : String → Except String String)
    (write : String → String → Except String Unit)
    (acc : DownloadOutcome) (url : String) : DownloadOutcome :=
  let acc' : DownloadOutcome := { acc with otherFiles := stepOther nav acc.otherFiles url }
  match fetch (url ++ ".md") with
  | .error e => { acc' with errLog := acc'.errLog ++ [logFail url e] }
  | .ok body =>
    match write (targetPath nav url) body with
    | .error e => { acc' with errLog := acc'.errLog ++ [logFail url e] }
    | .ok _ => { acc' with writes := acc'.writes ++ [(targetPath nav url, body)] }

/-- Translation of `downloadAndSaveDocs` (lines 90–130). Every per-URL
rejection is consumed by its own `.catch`, so the function is total: it
always returns an outcome (the JavaScript function never throws). -/
def downloadAndSaveDocs (nav : List Category) (urls : List String)
    (fetch : String → Except String String)
    (write : String → String → Except String Unit) : DownloadOutcome :=
  urls.foldl (processUrl nav fetch write) {}

/-- Effects issued synchronously by the loop of `downloadAndSaveDocs`, in
issuance order: each iteration awaits `fs.mkdir(dirPath)` (line 117) and then
immediately issues `axios.get(url + ".md")` when pushing the promise
(line 120). Writes and log lines happen on promise settlement and are not
part of this issuance trace. -/
inductive FsEvent where
  | mkdir (dir : String)
  | httpGet (url : String)
deriving Repr, DecidableEq

/-- Boolean recognizer for download-request events. -/
def FsEvent.isGetB : FsEvent → Bool
  | .httpGet _ => true
  | .mkdir _ => false

/-- Boolean recognizer for directory-creation events. -/
def FsEvent.isMkdirB : FsEvent → Bool
  | .mkdir _ => true
  | .httpGet _ => false

/-- The issuance trace of the loop of `downloadAndSaveDocs` (lines 95–125):
for each URL in order, its awaited `mkdir` followed by its `GET`. -/
def downloadTrace (nav : List Category) (urls : List String) : List FsEvent :=
  (urls.map (fun url =>
    [FsEvent.mkdir (dirPathFor nav url), FsEvent.httpGet (url ++ ".md")])).flatten

/-- The fixed README header up to and including the timestamp
(lines 137–139), with the timestamp string abstracted. -/
def readmeHeader (t : String) : String :=
  "# Claude Code Mirror Docs\n\n" ++
  "_This repository is a mirror of the official [Claude Code](https://docs.anthropic.com/en/docs/claude-code/) documentation. It is updated automatically._\n\n" ++
  "**Last updated:** " ++ t ++ "\n\n---\n\n"

/-- Translation of the accumulation in `generateReadme` (lines 135–155): the
header, then per category a `##` heading and one link line per file, then —
only when `otherFiles` is non-empty — an `## Others` section. The wall-clock
timestamp `new Date().toUTCString()` is abstracted as the argument `t`. -/
def generateReadme (nav : List Category) (otherFiles : List OtherFile)
    (t : String) : String :=
  let afterCats :=
    nav.foldl (fun acc category =>
      (category.files.foldl (fun a file =>
          a ++ ("- [" ++ file.title ++ "](./" ++ DOCS_DIR ++ "/" ++
            category.slug ++ "/" ++ file.slug ++ ".md)\n"))
        (acc ++ ("## " ++ category.title ++ "\n\n"))) ++ "\n")
      (readmeHeader t)
  if otherFiles.length > 0 then
    (otherFiles.foldl (fun a file =>
        a ++ ("- [" ++ file.title ++ "](./" ++ DOCS_DIR ++ "/others/" ++
          file.slug ++ ".md)\n"))
      (afterCats ++ "## Others\n\n")) ++ "\n"
  else afterCats

/-- Specification-shaped description of one file's link line. -/
def fileLine (categorySlug : String) (f : FileRef) : String :=
  "- [" ++ f.title ++ "](./" ++ DOCS_DIR ++ "/" ++ categorySlug ++ "/" ++
    f.slug ++ ".md)\n"

/-- Specification-shaped description of one category's README section. -/
def categorySection (c : Category) : String :=
  "## " ++ c.title ++ "\n\n" ++ String.join (c.files.map (fileLine c.slug)) ++ "\n"

/-- Specification-shaped description of one "others" link line. -/
def otherLine (f : OtherFile) : String :=
  "- [" ++ f.title ++ "](./" ++ DOCS_DIR ++ "/others/" ++ f.slug ++ ".md)\n"

/-- Specification-shaped description of the trailing "Others" section. -/
def othersSection (otherFiles : List OtherFile) : String :=
  "## Others\n\n" ++ String.join (otherFiles.map otherLine) ++ "\n"

/-- Outputs of one pipeline run that persist on disk: the document files
(path and verbatim body) and the README text. -/
structure PipelineOut where
  docs : List (String × String)
  readme : String
deriving Repr, DecidableEq

/-- One full run of the pipeline (`main`, lines 164–171) for fixed remote
responses, with the filesystem writes taken as succeeding and the wall-clock
timestamp abstracted as `t`: filter the sitemap `loc` values, build the
navigation structure, download every document, and render the README. -/
def runPipeline (locs : List String) (groups : List NavGroup)
    (fetch : String → Except String String) (t : String) : PipelineOut :=
  let urls := fetchAllUrlsFromSitemap locs
  let nav := fetchNavigationStructure groups
  let outcome := downloadAndSaveDocs nav urls fetch (fun _ _ => Except.ok ())
  { docs := outcome.writes, readme := generateReadme nav outcome.otherFiles t }

/-- Translation of `main` (lines 164–171) with each fallible collaborator as
an oracle: cleanup result, sitemap response (the parsed `loc` list),
navigation response (the parsed sidebar groups), per-document fetch and
write, and the README write. An `Except.error` models a thrown error
propagating to the top-level catch. -/
def mainRun (cleanR : Except String Unit) (sitemapR : Except String (List String))
    (navR : Except String (List NavGroup))
    (fetch : String → Except String String)
    (write : String → String → Except String Unit)
    (writeReadme : String → Except String Unit) (t : String) :
    Except String Unit := do
  let _ ← cleanR
  let locs ← sitemapR
  let urls := fetchAllUrlsFromSitemap locs
  let groups ← navR
  let nav := fetchNavigationStructure groups
  let outcome := downloadAndSaveDocs nav urls fetch write
  writeReadme (generateReadme nav outcome.otherFiles t)

/-- Exit status of the process (lines 173–176): `0` when `main`'s promise
resolves, `1` when the top-level catch fires. -/
def mainExitCode (cleanR : Except String Unit)
    (sitemapR : Except String (List String))
    (navR : Except String (List NavGroup))
    (fetch : String → Except String String)
    (write : String → String → Except String Unit)
    (writeReadme : String → Except String Unit) (t : String) : Nat :=
  match mainRun cleanR sitemapR navR fetch write writeReadme t with
  | .ok _ => 0
  | .error _ => 1

/-- Split a character list at every `'\n'` (the newline characters are
consumed; a list with `k` newlines yields `k + 1` lines). -/
def splitNl : List Char → List (List Char)
  | [] => [[]]
  | c :: cs =>
    if c = '\n' then [] :: splitNl cs
    else
      match splitNl cs with
      | [] => [[c]]
      | l :: ls => (c :: l) :: ls

/-- A character list free of newlines. -/
def hasNoNl (cs : List Char) : Bool := cs.all (fun c => c != '\n')

/-! ### Helper lemmas -/

theorem strFoldl_append (l : List String) :
    ∀ a b : String, l.foldl (· ++ ·) (a ++ b) = a ++ l.foldl (· ++ ·) b := by
  induction l with
  | nil => intro a b; rfl
  | cons c cs ih =>
    intro a b
    simp only [List.foldl_cons, String.append_assoc]
    exact ih a (b ++ c)

theorem strJoin_cons (s : String) (l : List String) :
    String.join (s :: l) = s ++ String.join l := by
  show l.foldl (· ++ ·) ("" ++ s) = s ++ l.foldl (· ++ ·) ""
  rw [String.empty_append, ← String.append_empty s, strFoldl_append,
    String.append_empty]

/-- A left fold whose step appends `g x` equals the initial string followed by
the join of the images. -/
theorem foldl_eq_join {α : Type} (step : String → α → String) (g : α → String)
    (h : ∀ acc x, step acc x = acc ++ g x) :
    ∀ (l : List α) (init : String),
      l.foldl step init = init ++ String.join (l.map g) := by
  intro l
  induction l with
  | nil => intro init; simp [String.join, String.append_empty]
  | cons x xs ih =>
    intro init
    simp only [List.foldl_cons, List.map_cons, h, strJoin_cons, ih,
      String.append_assoc]

theorem splitNl_nl_cons (ys : List Char) : splitNl ('\n' :: ys) = [] :: splitNl ys := by
  simp [splitNl]

theorem splitNl_append_nl (xs ys : List Char) (h : hasNoNl xs = true) :
    splitNl (xs ++ '\n' :: ys) = xs :: splitNl ys := by
  induction xs with
  | nil => simpa using splitNl_nl_cons ys
  | cons c cs ih =>
    simp only [hasNoNl, List.all_cons, Bool.and_eq_true, ne_eq, bne_iff_ne] at h
    have hcs : hasNoNl cs = true := by simpa [hasNoNl] using h.2
    have hrec : splitNl (cs ++ '\n' :: ys) = cs :: splitNl ys := ih hcs
    simp only [List.cons_append, splitNl, if_neg h.1]
    rw [show cs.append ('\n' :: ys) = cs ++ '\n' :: ys from rfl, hrec]

theorem hasNoNl_append (xs ys : List Char) :
    hasNoNl (xs ++ ys) = (hasNoNl xs && hasNoNl ys) := by
  simp [hasNoNl]

/-- `List.find?` splits its list at the first match. -/
theorem find?_eq_some_split {α : Type} (p : α → Bool) :
    ∀ (l : List α) (a : α), l.find? p = some a →
      ∃ l1 l2, l = l1 ++ a :: l2 ∧ ∀ x ∈ l1, p x = false := by
  intro l
  induction l with
  | nil => intro a h; simp [List.find?] at h
  | cons b bs ih =>
    intro a h
    by_cases hb : p b
    · rw [List.find?_cons_of_pos _ hb] at h
      have hba : b = a := Option.some.inj h
      subst hba
      exact ⟨[], bs, rfl, by simp⟩
    · rw [List.find?_cons_of_neg _ hb] at h
      obtain ⟨l1, l2, heq, hall⟩ := ih a h
      refine ⟨b :: l1, l2, by simp [heq], ?_⟩
      intro x hx
      rcases List.mem_cons.1 hx with rfl | hx'
      · simpa using hb
      · exact hall x hx'

theorem matchesUrl_iff (url : String) (c : Category) :
    matchesUrl url c = true ↔ ∃ f ∈ c.files, f.href = url := by
  simp [matchesUrl, List.any_eq_true]

/-! ### Claim C5: slug derivation -/

theorem isKeepChar_not_ws {c : Char} (h : isKeepChar c = true) : isJsWs c = false := by
  simp only [isKeepChar, decide_eq_true_eq] at h
  simp only [isJsWs]
  simp only [Bool.or_eq_false_iff, beq_eq_false_iff_ne, ne_eq]
  omega

theorem isKeepChar_lower_fix {c : Char} (h : isKeepChar c = true) :
    jsToLowerChar c = c := by
  simp only [isKeepChar, decide_eq_true_eq] at h
  unfold jsToLowerChar
  rw [if_neg]
  omega

theorem collapseGo_of_no_ws {cs : List Char} (h : ∀ c ∈ cs, isJsWs c = false) :
    ∀ b, collapseGo b cs = cs := by
  induction cs with
  | nil => intro b; rfl
  | cons c cs ih =>
    intro b
    have hc : isJsWs c = false := h c (List.mem_cons_self ..)
    simp only [collapseGo, hc, Bool.false_eq_true, if_false]
    rw [ih (fun x hx => h x (List.mem_cons_of_mem _ hx))]

theorem slugify_data (text : String) :
    (slugify text).data =
      List.filter isKeepChar (collapseWs (text.data.map jsToLowerChar)) := rfl

theorem mem_slugify_keep {text : String} {c : Char} (h : c ∈ (slugify text).data) :
    isKeepChar c = true := by
  rw [slugify_data] at h
  exact List.of_mem_filter h

/-- C5: slug derivation (line 17) is a deterministic function — lowercase,
every maximal whitespace run replaced by a single hyphen, characters outside
`[a-z0-9-]` removed — it is idempotent, and
`slugify "Getting Started!" = "getting-started"`. -/
theorem claim_C5_slugify_idempotent :
    (∀ t : String, slugify (slugify t) = slugify t) ∧
      slugify "Getting Started!" = "getting-started" := by
  refine ⟨fun t => ?_, by decide⟩
  have hkeep : ∀ c ∈ (slugify t).data, isKeepChar c = true :=
    fun c hc => mem_slugify_keep hc
  show String.mk
      (List.filter isKeepChar (collapseWs ((slugify t).data.map jsToLowerChar))) =
    slugify t
  rw [List.map_congr_left (fun c hc => isKeepChar_lower_fix (hkeep c hc)),
    List.map_id']
  simp only [collapseWs]
  rw [collapseGo_of_no_ws (fun c hc => isKeepChar_not_ws (hkeep c hc)) false]
  rw [List.filter_eq_self.mpr hkeep]

/-- C6: the sitemap fetcher's output is exactly the sublist of the sitemap's
`loc` values whose string starts with the fixed path filter: it is a sublist
(so sitemap document order is preserved), every matching value keeps its full
multiplicity (duplicates retained), and every non-matching value is excluded
(multiplicity zero). -/
theorem claim_C6_sitemap_filter (locs : List String) :
    List.Sublist (fetchAllUrlsFromSitemap locs) locs ∧
      ∀ u : String, (fetchAllUrlsFromSitemap locs).count u =
        if jsStartsWith u URL_PREFIX = true then locs.count u else 0 := by
  refine ⟨List.filter_sublist locs, fun u => ?_⟩
  simp only [fetchAllUrlsFromSitemap]
  by_cases h : jsStartsWith u URL_PREFIX = true
  · rw [if_pos h]
    exact List.count_filter h
  · rw [if_neg h, List.count_eq_zero]
    intro hmem
    rw [List.mem_filter] at hmem
    exact h hmem.2

/-! ### Claims C1 and C10: categorization and target paths -/

/-- C1: every sitemap URL gets exactly one target file path:
`docs/<category-slug>/<filename-slug>.md` when some category's file list
contains a `FileRef` whose `href` is exactly string-equal to the URL, and
`docs/others/<filename-slug>.md` otherwise, where the filename slug is the
URL's last path segment. Matching is exact string equality. -/
theorem claim_C1_target_path (nav : List Category) (url : String) :
    ((∃ c ∈ nav, ∃ f ∈ c.files, f.href = url) →
      ∃ c, nav.find? (matchesUrl url) = some c ∧ c ∈ nav ∧
        (∃ f ∈ c.files, f.href = url) ∧
        targetPath nav url =
          DOCS_DIR ++ "/" ++ c.slug ++ "/" ++ basename url ++ ".md") ∧
    ((∀ c ∈ nav, ∀ f ∈ c.files, f.href ≠ url) →
      targetPath nav url =
        DOCS_DIR ++ "/" ++ "others" ++ "/" ++ basename url ++ ".md") := by
  constructor
  · rintro ⟨c, hc, hf⟩
    have hm : (nav.find? (matchesUrl url)).isSome := by
      rw [List.find?_isSome]
      exact ⟨c, hc, (matchesUrl_iff url c).mpr hf⟩
    obtain ⟨c0, hc0⟩ := Option.isSome_iff_exists.mp hm
    refine ⟨c0, hc0, List.mem_of_find?_eq_some hc0,
      (matchesUrl_iff url c0).mp (List.find?_some hc0), ?_⟩
    simp only [targetPath, dirPathFor, categorySlugFor, hc0]
  · intro hnone
    have hfind : nav.find? (matchesUrl url) = none := by
      rw [List.find?_eq_none]
      intro c hc hmatch
      obtain ⟨f, hfmem, hfeq⟩ := (matchesUrl_iff url c).mp hmatch
      exact hnone c hc f hfmem hfeq
    simp only [targetPath, dirPathFor, categorySlugFor, hfind]

/-- Witness for C1 on concrete inputs: an exactly matching URL lands under its
category's slug, while the same URL with a trailing slash (no normalization)
lands under "others". -/
def c1Nav : List Category :=
  [{ title := "Getting started", slug := "getting-started",
     files := [{ slug := "quickstart", title := "Quickstart",
                 href := "https://docs.anthropic.com/en/docs/claude-code/quickstart" }] }]

/-- The matching URL used by the C1 witness. -/
def c1Url : String := "https://docs.anthropic.com/en/docs/claude-code/quickstart"

/-- The trailing-slash variant used by the C1 witness. -/
def c1UrlSlash : String := "https://docs.anthropic.com/en/docs/claude-code/quickstart/"

theorem claim_C1_target_path_witness :
    (∃ c, c1Nav.find? (matchesUrl c1Url) = some c ∧ c ∈ c1Nav ∧
      (∃ f ∈ c.files, f.href = c1Url) ∧
      targetPath c1Nav c1Url =
        DOCS_DIR ++ "/" ++ c.slug ++ "/" ++ basename c1Url ++ ".md") ∧
    targetPath c1Nav c1UrlSlash =
      DOCS_DIR ++ "/" ++ "others" ++ "/" ++ basename c1UrlSlash ++ ".md" ∧
    targetPath c1Nav c1Url = "docs/getting-started/quickstart.md" ∧
    targetPath c1Nav c1UrlSlash = "docs/others/quickstart.md" :=
  ⟨(claim_C1_target_path c1Nav c1Url).1 (by decide),
   (claim_C1_target_path c1Nav c1UrlSlash).2 (by decide),
   by decide, by decide⟩

/-- C10: a URL matched by several categories is assigned to the first
matching category in navigation order — the scan stops at the first category
containing a matching `href` — and its file path is under that category's
slug directory. -/
theorem claim_C10_first_match_wins (nav : List Category) (url : String)
    (h : ∃ c ∈ nav, ∃ f ∈ c.files, f.href = url) :
    ∃ l1 c0 l2, nav = l1 ++ c0 :: l2 ∧ (∃ f ∈ c0.files, f.href = url) ∧
      (∀ c ∈ l1, ∀ f ∈ c.files, f.href ≠ url) ∧
      categorySlugFor nav url = c0.slug ∧
      targetPath nav url =
        DOCS_DIR ++ "/" ++ c0.slug ++ "/" ++ basename url ++ ".md" := by
  obtain ⟨c, hc, hf⟩ := h
  have hm : (nav.find? (matchesUrl url)).isSome := by
    rw [List.find?_isSome]
    exact ⟨c, hc, (matchesUrl_iff url c).mpr hf⟩
  obtain ⟨c0, hc0⟩ := Option.isSome_iff_exists.mp hm
  obtain ⟨l1, l2, heq, hall⟩ := find?_eq_some_split _ nav c0 hc0
  refine ⟨l1, c0, l2, heq, (matchesUrl_iff url c0).mp (List.find?_some hc0),
    ?_, ?_, ?_⟩
  · intro c' hc' f hf' heqf
    have htrue : matchesUrl url c' = true := (matchesUrl_iff url c').mpr ⟨f, hf', heqf⟩
    rw [hall c' hc'] at htrue
    exact Bool.false_ne_true htrue
  · simp only [categorySlugFor, hc0]
  · simp only [targetPath, dirPathFor, categorySlugFor, hc0]

/-- Witness fixture for C10: the same href occurs in two categories. -/
def c10Nav : List Category :=
  [{ title := "Alpha", slug := "alpha",
     files := [{ slug := "page", title := "Page",
                 href := "https://docs.anthropic.com/en/docs/claude-code/page" }] },
   { title := "Beta", slug := "beta",
     files := [{ slug := "page", title := "Page",
                 href := "https://docs.anthropic.com/en/docs/claude-code/page" }] }]

/-- The doubly-matched URL used by the C10 witness. -/
def c10Url : String := "https://docs.anthropic.com/en/docs/claude-code/page"

theorem claim_C10_first_match_wins_witness :
    (∃ l1 c0 l2, c10Nav = l1 ++ c0 :: l2 ∧ (∃ f ∈ c0.files, f.href = c10Url) ∧
      (∀ c ∈ l1, ∀ f ∈ c.files, f.href ≠ c10Url) ∧
      categorySlugFor c10Nav c10Url = c0.slug ∧
      targetPath c10Nav c10Url =
        DOCS_DIR ++ "/" ++ c0.slug ++ "/" ++ basename c10Url ++ ".md") ∧
    categorySlugFor c10Nav c10Url = "alpha" :=
  ⟨claim_C10_first_match_wins c10Nav c10Url (by decide), by decide⟩

/-! ### Claim C9: empty-title sidebar groups -/

/-- C9: a sidebar group whose heading text is empty (or missing) after
trimming produces no category at all: the navigation structure is the same
as if the group were absent, and no returned category has an empty title —
so such a group contributes nothing downstream. -/
theorem claim_C9_empty_title_group_skipped (pre post : List NavGroup)
    (g : NavGroup) (h : jsTrim g.titleText = "") :
    fetchNavigationStructure (pre ++ g :: post) =
      fetchNavigationStructure (pre ++ post) ∧
    ∀ c ∈ fetchNavigationStructure (pre ++ g :: post), c.title ≠ "" := by
  have hg : buildCategory g = none := by simp [buildCategory, h]
  constructor
  · simp only [fetchNavigationStructure, List.filterMap_append,
      List.filterMap_cons, hg]
  · intro c hc
    simp only [fetchNavigationStructure] at hc
    obtain ⟨g', hg', hsome⟩ := List.mem_filterMap.mp hc
    by_cases ht : jsTrim g'.titleText = ""
    · simp [buildCategory, ht] at hsome
    · simp only [buildCategory, if_neg ht] at hsome
      have hct := Option.some.inj hsome
      intro habs
      rw [← hct] at habs
      exact ht habs

/-- Witness fixture for C9: a whitespace-only heading with a link. -/
def c9Group : NavGroup :=
  { titleText := "   ",
    links := [{ href := some "/en/docs/claude-code/lost", text := "Lost" }] }

/-- Witness fixture for C9: a surrounding non-empty group. -/
def c9Pre : List NavGroup :=
  [{ titleText := "Getting started",
     links := [{ href := some "/en/docs/claude-code/overview", text := "Overview" }] }]

theorem claim_C9_empty_title_group_skipped_witness :
    jsTrim c9Group.titleText = "" ∧
    (fetchNavigationStructure (c9Pre ++ c9Group :: []) =
      fetchNavigationStructure (c9Pre ++ []) ∧
    ∀ c ∈ fetchNavigationStructure (c9Pre ++ c9Group :: []), c.title ≠ "") :=
  ⟨by decide, claim_C9_empty_title_group_skipped c9Pre [] c9Group (by decide)⟩

/-! ### Decomposition of the download outcome -/

/-- The log lines contributed by one URL's download attempt. -/
def urlLogOf (nav : List Category) (fetch : String → Except String String)
    (write : String → String → Except String Unit) (url : String) :
    List String :=
  match fetch (url ++ ".md") with
  | .error e => [logFail url e]
  | .ok body =>
    match write (targetPath nav url) body with
    | .error e => [logFail url e]
    | .ok _ => []

/-- The file writes contributed by one URL's download attempt. -/
def urlWriteOf (nav : List Category) (fetch : String → Except String String)
    (write : String → String → Except String Unit) (url : String) :
    List (String × String) :=
  match fetch (url ++ ".md") with
  | .error _ => []
  | .ok body =>
    match write (targetPath nav url) body with
    | .error _ => []
    | .ok _ => [(targetPath nav url, body)]

theorem processUrl_eq (nav : List Category) (fetch : String → Except String String)
    (write : String → String → Except String Unit) (acc : DownloadOutcome)
    (url : String) :
    processUrl nav fetch write acc url =
      { writes := acc.writes ++ urlWriteOf nav fetch write url,
        errLog := acc.errLog ++ urlLogOf nav fetch write url,
        otherFiles := stepOther nav acc.otherFiles url } := by
  simp only [processUrl, urlWriteOf, urlLogOf]
  cases hf : fetch (url ++ ".md") with
  | error e => simp
  | ok body =>
    cases hw : write (targetPath nav url) body with
    | error e => simp [hw]
    | ok u => simp [hw]

theorem foldl_processUrl_eq (nav : List Category)
    (fetch : String → Except String String)
    (write : String → String → Except String Unit) :
    ∀ (urls : List String) (acc : DownloadOutcome),
      urls.foldl (processUrl nav fetch write) acc =
        { writes := acc.writes ++ (urls.map (urlWriteOf nav fetch write)).flatten,
          errLog := acc.errLog ++ (urls.map (urlLogOf nav fetch write)).flatten,
          otherFiles := urls.foldl (stepOther nav) acc.otherFiles } := by
  intro urls
  induction urls with
  | nil => intro acc; simp
  | cons u us ih =>
    intro acc
    simp only [List.foldl_cons, List.map_cons, List.flatten_cons, processUrl_eq, ih,
      List.append_assoc]

theorem downloadAndSaveDocs_fields (nav : List Category) (urls : List String)
    (fetch : String → Except String String)
    (write : String → String → Except String Unit) :
    downloadAndSaveDocs nav urls fetch write =
      { writes := (urls.map (urlWriteOf nav fetch write)).flatten,
        errLog := (urls.map (urlLogOf nav fetch write)).flatten,
        otherFiles := collectOtherFiles nav urls } := by
  simp [downloadAndSaveDocs, foldl_processUrl_eq, collectOtherFiles]

/-! ### Claim C8: the "others" collection -/

theorem stepOther_inv (nav : List Category) (acc : List OtherFile) (url : String)
    (h1 : (acc.map OtherFile.slug).Nodup) (h2 : ∀ e ∈ acc, e.title = e.slug) :
    ((stepOther nav acc url).map OtherFile.slug).Nodup ∧
      ∀ e ∈ stepOther nav acc url, e.title = e.slug := by
  unfold stepOther
  by_cases hm : (nav.find? (matchesUrl url)).isSome = true
  · rw [if_pos hm]
    exact ⟨h1, h2⟩
  · rw [if_neg hm]
    by_cases ha : acc.any (fun f => f.slug == basename url) = true
    · rw [if_pos ha]
      exact ⟨h1, h2⟩
    · rw [if_neg ha]
      have hnot : basename url ∉ acc.map OtherFile.slug := by
        intro habs
        obtain ⟨e, he, heq⟩ := List.mem_map.mp habs
        apply ha
        rw [List.any_eq_true]
        exact ⟨e, he, by rw [heq]; exact beq_self_eq_true _⟩
      constructor
      · rw [List.map_append]
        simp only [List.map_cons, List.map_nil]
        rw [List.nodup_append]
        exact ⟨h1, List.nodup_singleton _, by simpa [List.disjoint_singleton] using hnot⟩
      · intro e he
        rcases List.mem_append.mp he with he' | he'
        · exact h2 e he'
        · simp only [List.mem_singleton] at he'
          subst he'
          rfl

theorem collectOtherFiles_foldl_inv (nav : List Category) :
    ∀ (urls : List String) (acc : List OtherFile),
      (acc.map OtherFile.slug).Nodup → (∀ e ∈ acc, e.title = e.slug) →
      (((urls.foldl (stepOther nav) acc).map OtherFile.slug).Nodup ∧
        ∀ e ∈ urls.foldl (stepOther nav) acc, e.title = e.slug) := by
  intro urls
  induction urls with
  | nil => intro acc h1 h2; exact ⟨h1, h2⟩
  | cons u us ih =>
    intro acc h1 h2
    obtain ⟨h1', h2'⟩ := stepOther_inv nav acc u h1 h2
    exact ih _ h1' h2'

/-- C8: a sitemap URL matching no navigation `href` appends
`{slug, title := slug}` (slug = the URL's last path segment) to the others
collection iff no entry with that slug is present; a matching URL leaves the
collection unchanged; hence the collection holds at most one entry per slug,
in first-occurrence order (new entries always appended at the end), with the
filename slug as both slug and title. -/
theorem claim_C8_others_collection (nav : List Category) (urls : List String)
    (fetch : String → Except String String)
    (write : String → String → Except String Unit) :
    (downloadAndSaveDocs nav urls fetch write).otherFiles =
      collectOtherFiles nav urls ∧
    (∀ us u, (∀ c ∈ nav, ∀ f ∈ c.files, f.href ≠ u) →
      collectOtherFiles nav (us ++ [u]) =
        (if (collectOtherFiles nav us).any (fun f => f.slug == basename u) then
          collectOtherFiles nav us
        else
          collectOtherFiles nav us ++ [{ slug := basename u, title := basename u }])) ∧
    (∀ us u, (∃ c ∈ nav, ∃ f ∈ c.files, f.href = u) →
      collectOtherFiles nav (us ++ [u]) = collectOtherFiles nav us) ∧
    ((collectOtherFiles nav urls).map OtherFile.slug).Nodup ∧
    (∀ e ∈ collectOtherFiles nav urls, e.title = e.slug) := by
  refine ⟨?_, ?_, ?_, ?_, ?_⟩
  · rw [downloadAndSaveDocs_fields]
  · intro us u hno
    have hnone : nav.find? (matchesUrl u) = none := by
      rw [List.find?_eq_none]
      intro c hc hmatch
      obtain ⟨f, hfmem, hfeq⟩ := (matchesUrl_iff u c).mp hmatch
      exact hno c hc f hfmem hfeq
    simp only [collectOtherFiles, List.foldl_append, List.foldl_cons, List.foldl_nil]
    rw [stepOther, hnone]
    simp
  · intro us u hyes
    obtain ⟨c, hc, hf⟩ := hyes
    have hsome : (nav.find? (matchesUrl u)).isSome = true := by
      rw [List.find?_isSome]
      exact ⟨c, hc, (matchesUrl_iff u c).mpr hf⟩
    simp only [collectOtherFiles, List.foldl_append, List.foldl_cons, List.foldl_nil]
    rw [stepOther, if_pos hsome]
  · exact (collectOtherFiles_foldl_inv nav urls [] (by simp) (by simp)).1
  · exact (collectOtherFiles_foldl_inv nav urls [] (by simp) (by simp)).2

/-- Witness fixture for C8: two uncategorized URLs sharing a filename slug. -/
def c8Urls : List String := ["https://a/x", "https://b/x"]

theorem claim_C8_others_collection_witness :
    (collectOtherFiles [] (["https://a/x"] ++ ["https://b/x"]) =
      (if (collectOtherFiles [] ["https://a/x"]).any
          (fun f => f.slug == basename "https://b/x") then
        collectOtherFiles [] ["https://a/x"]
      else
        collectOtherFiles [] ["https://a/x"] ++
          [{ slug := basename "https://b/x", title := basename "https://b/x" }])) ∧
    ((collectOtherFiles [] c8Urls).map OtherFile.slug).Nodup ∧
    collectOtherFiles [] c8Urls = [{ slug := "x", title := "x" }] :=
  ⟨(claim_C8_others_collection [] c8Urls (fun _ => Except.error "network")
      (fun _ _ => Except.ok ())).2.1 ["https://a/x"] "https://b/x" (by decide),
   (claim_C8_others_collection [] c8Urls (fun _ => Except.error "network")
      (fun _ _ => Except.ok ())).2.2.2.1,
   by decide⟩

/-! ### Claim C2: per-document failures are isolated -/

/-- C2: when the orchestration steps succeed (cleanup, sitemap, navigation,
README write), the process exits with status 0 no matter what the
per-document fetches and writes do — even if every one of them fails; every
failing URL gets a log line with that URL and the error message (for a fetch
failure or a write failure alike), and every URL whose fetch and write
succeed is written with its body to its target path. `downloadAndSaveDocs`
itself is a total function (every per-URL rejection is consumed by its own
catch handler), so it never throws. -/
theorem claim_C2_failures_isolated
    (locs : List String) (groups : List NavGroup)
    (fetch : String → Except String String)
    (write : String → String → Except String Unit)
    (writeReadme : String → Except String Unit) (t : String)
    (cleanR : Except String Unit)
    (hclean : cleanR = Except.ok ())
    (hreadme : ∀ s, writeReadme s = Except.ok ()) :
    mainExitCode cleanR (Except.ok locs) (Except.ok groups) fetch write
      writeReadme t = 0 ∧
    (∀ url ∈ fetchAllUrlsFromSitemap locs, ∀ e,
      fetch (url ++ ".md") = Except.error e →
      logFail url e ∈ (downloadAndSaveDocs (fetchNavigationStructure groups)
        (fetchAllUrlsFromSitemap locs) fetch write).errLog) ∧
    (∀ url ∈ fetchAllUrlsFromSitemap locs, ∀ body e,
      fetch (url ++ ".md") = Except.ok body →
      write (targetPath (fetchNavigationStructure groups) url) body =
        Except.error e →
      logFail url e ∈ (downloadAndSaveDocs (fetchNavigationStructure groups)
        (fetchAllUrlsFromSitemap locs) fetch write).errLog) ∧
    (∀ url ∈ fetchAllUrlsFromSitemap locs, ∀ body,
      fetch (url ++ ".md") = Except.ok body →
      write (targetPath (fetchNavigationStructure groups) url) body =
        Except.ok () →
      (targetPath (fetchNavigationStructure groups) url, body) ∈
        (downloadAndSaveDocs (fetchNavigationStructure groups)
          (fetchAllUrlsFromSitemap locs) fetch write).writes) := by
  subst hclean
  refine ⟨?_, ?_, ?_, ?_⟩
  · simp only [mainExitCode, mainRun, hreadme]
    rfl
  · intro url hurl e hf
    rw [downloadAndSaveDocs_fields]
    refine List.mem_flatten.mpr ⟨urlLogOf (fetchNavigationStructure groups)
      fetch write url, List.mem_map_of_mem _ hurl, ?_⟩
    simp [urlLogOf, hf]
  · intro url hurl body e hf hw
    rw [downloadAndSaveDocs_fields]
    refine List.mem_flatten.mpr ⟨urlLogOf (fetchNavigationStructure groups)
      fetch write url, List.mem_map_of_mem _ hurl, ?_⟩
    simp [urlLogOf, hf, hw]
  · intro url hurl body hf hw
    rw [downloadAndSaveDocs_fields]
    refine List.mem_flatten.mpr ⟨urlWriteOf (fetchNavigationStructure groups)
      fetch write url, List.mem_map_of_mem _ hurl, ?_⟩
    simp [urlWriteOf, hf, hw]

/-- Witness fixture for C2: two in-scope sitemap URLs. -/
def c2Locs : List String :=
  ["https://docs.anthropic.com/en/docs/claude-code/a",
   "https://docs.anthropic.com/en/docs/claude-code/b"]

theorem claim_C2_failures_isolated_witness :
    mainExitCode (Except.ok ()) (Except.ok c2Locs) (Except.ok [])
      (fun _ => Except.error "network") (fun _ _ => Except.ok ())
      (fun _ => Except.ok ()) "now" = 0 ∧
    logFail "https://docs.anthropic.com/en/docs/claude-code/a" "network" ∈
      (downloadAndSaveDocs (fetchNavigationStructure [])
        (fetchAllUrlsFromSitemap c2Locs) (fun _ => Except.error "network")
        (fun _ _ => Except.ok ())).errLog :=
  ⟨(claim_C2_failures_isolated c2Locs [] (fun _ => Except.error "network")
      (fun _ _ => Except.ok ()) (fun _ => Except.ok ()) "now" (Except.ok ())
      rfl (fun _ => rfl)).1,
   (claim_C2_failures_isolated c2Locs [] (fun _ => Except.error "network")
      (fun _ _ => Except.ok ()) (fun _ => Except.ok ()) "now" (Except.ok ())
      rfl (fun _ => rfl)).2.1
     "https://docs.anthropic.com/en/docs/claude-code/a" (by decide) "network" rfl⟩

/-! ### Claim C7: README structure -/

theorem foldl_append_join {α : Type} (g : α → String) :
    ∀ (l : List α) (init : String),
      l.foldl (fun acc x => acc ++ g x) init = init ++ String.join (l.map g) :=
  foldl_eq_join _ g (fun _ _ => rfl)

theorem readme_cat_fold (acc : String) (c : Category) :
    (c.files.foldl (fun a file =>
        a ++ ("- [" ++ file.title ++ "](./" ++ DOCS_DIR ++ "/" ++ c.slug ++
          "/" ++ file.slug ++ ".md)\n"))
      (acc ++ ("## " ++ c.title ++ "\n\n"))) ++ "\n" =
    acc ++ categorySection c := by
  show (c.files.foldl (fun a file => a ++ fileLine c.slug file)
      (acc ++ ("## " ++ c.title ++ "\n\n"))) ++ "\n" = acc ++ categorySection c
  rw [foldl_append_join (fileLine c.slug)]
  simp only [categorySection, String.append_assoc]

/-- The README content is the header followed by one section per category in
navigation order, followed by an "Others" section exactly when the
`otherFiles` collection is non-empty. -/
theorem generateReadme_eq (nav : List Category) (otherFiles : List OtherFile)
    (t : String) :
    generateReadme nav otherFiles t =
      readmeHeader t ++ String.join (nav.map categorySection) ++
        (if otherFiles = [] then "" else othersSection otherFiles) := by
  simp only [generateReadme]
  rw [foldl_eq_join _ categorySection readme_cat_fold]
  cases otherFiles with
  | nil => simp [String.append_empty]
  | cons f fs =>
    rw [if_pos (by simp), if_neg (by simp)]
    show ((f :: fs).foldl (fun a file => a ++ otherLine file)
        (readmeHeader t ++ String.join (List.map categorySection nav) ++
          "## Others\n\n")) ++ "\n" =
      readmeHeader t ++ String.join (List.map categorySection nav) ++
        othersSection (f :: fs)
    rw [foldl_append_join otherLine]
    simp only [othersSection, String.append_assoc]

/-- C7: the generated index contains, for each category in navigation order,
a level-2 heading with the category's title followed by one markdown link per
file in list order (text = file title, target =
`./docs/<category-slug>/<file-slug>.md`), and a trailing "Others" section
(same line shape, target `./docs/others/<slug>.md`) present iff the
`OtherFile` list is non-empty. -/
theorem claim_C7_readme_sections (nav : List Category)
    (otherFiles : List OtherFile) (t : String) :
    generateReadme nav otherFiles t =
      readmeHeader t ++ String.join (nav.map categorySection) ++
        (if otherFiles = [] then "" else othersSection otherFiles) :=
  generateReadme_eq nav otherFiles t

/-! ### Claim C3: run-to-run determinism -/

/-- The literal prefix of the "Last updated" line (line 139). -/
def lastUpdatedLabel : String := "**Last updated:** "

/-- The fixed README text before the timestamp. -/
def readmeConstPre : String :=
  "# Claude Code Mirror Docs\n\n" ++
  "_This repository is a mirror of the official [Claude Code](https://docs.anthropic.com/en/docs/claude-code/) documentation. It is updated automatically._\n\n" ++
  lastUpdatedLabel

/-- The README text after the "Last updated" line's newline; it does not
depend on the timestamp. -/
def readmeBody (nav : List Category) (otherFiles : List OtherFile) : String :=
  "\n---\n\n" ++ String.join (nav.map categorySection) ++
    (if otherFiles = [] then "" else othersSection otherFiles)

theorem generateReadme_split (nav : List Category) (otherFiles : List OtherFile)
    (t : String) :
    generateReadme nav otherFiles t =
      readmeConstPre ++ t ++ "\n" ++ readmeBody nav otherFiles := by
  rw [generateReadme_eq]
  simp only [readmeHeader, readmeConstPre, readmeBody, lastUpdatedLabel,
    String.append_assoc]
  rw [show ("\n\n---\n\n" : String) = "\n" ++ "\n---\n\n" from rfl]
  simp only [String.append_assoc]

/-- The first README line. -/
def readmeTitleLine : List Char := "# Claude Code Mirror Docs".data

/-- The README description line. -/
def readmeDescLine : List Char :=
  "_This repository is a mirror of the official [Claude Code](https://docs.anthropic.com/en/docs/claude-code/) documentation. It is updated automatically._".data

/-- The fixed README lines before the "Last updated" line. -/
def readmeFixedLinesPre : List (List Char) :=
  [readmeTitleLine, [], readmeDescLine, []]

/-- The README lines after the "Last updated" line; independent of the
timestamp. -/
def readmeTailLines (nav : List Category) (otherFiles : List OtherFile) :
    List (List Char) :=
  splitNl (readmeBody nav otherFiles).data

set_option maxRecDepth 40000 in
/-- Splitting the README into lines: all lines are timestamp-independent
except the single "Last updated" line. -/
theorem splitNl_generateReadme (nav : List Category)
    (otherFiles : List OtherFile) (t : String) (ht : hasNoNl t.data = true) :
    splitNl (generateReadme nav otherFiles t).data =
      readmeFixedLinesPre ++ (lastUpdatedLabel.data ++ t.data) ::
        readmeTailLines nav otherFiles := by
  rw [generateReadme_split]
  have hlu : hasNoNl (lastUpdatedLabel.data ++ t.data) = true := by
    rw [hasNoNl_append, ht, Bool.and_true]
    decide
  have h1 : (readmeConstPre ++ t ++ "\n" ++ readmeBody nav otherFiles).data =
      readmeTitleLine ++ '\n' :: ('\n' :: (readmeDescLine ++ '\n' :: ('\n' ::
        ((lastUpdatedLabel.data ++ t.data) ++ '\n' ::
          (readmeBody nav otherFiles).data)))) := by
    simp only [String.data_append]
    rw [show readmeConstPre.data =
        readmeTitleLine ++ '\n' :: ('\n' :: (readmeDescLine ++ '\n' :: ('\n' ::
          lastUpdatedLabel.data))) from by decide]
    simp [List.append_assoc]
  rw [h1, splitNl_append_nl readmeTitleLine _ (by decide), splitNl_nl_cons,
    splitNl_append_nl readmeDescLine _ (by decide), splitNl_nl_cons,
    splitNl_append_nl (lastUpdatedLabel.data ++ t.data) _ hlu]
  simp [readmeFixedLinesPre, readmeTailLines]

/-- C3: for fixed remote responses, two complete runs produce identical
document files (the bodies are written verbatim and do not depend on the
clock), and README texts whose line lists agree everywhere except the single
"Last updated" line, which carries the run's timestamp. -/
theorem claim_C3_two_runs_differ_only_in_timestamp (locs : List String)
    (groups : List NavGroup) (fetch : String → Except String String)
    (t1 t2 : String) (h1 : hasNoNl t1.data = true) (h2 : hasNoNl t2.data = true) :
    (runPipeline locs groups fetch t1).docs =
      (runPipeline locs groups fetch t2).docs ∧
    splitNl (runPipeline locs groups fetch t1).readme.data =
      readmeFixedLinesPre ++ (lastUpdatedLabel.data ++ t1.data) ::
        readmeTailLines (fetchNavigationStructure groups)
          (collectOtherFiles (fetchNavigationStructure groups)
            (fetchAllUrlsFromSitemap locs)) ∧
    splitNl (runPipeline locs groups fetch t2).readme.data =
      readmeFixedLinesPre ++ (lastUpdatedLabel.data ++ t2.data) ::
        readmeTailLines (fetchNavigationStructure groups)
          (collectOtherFiles (fetchNavigationStructure groups)
            (fetchAllUrlsFromSitemap locs)) := by
  have hof : (downloadAndSaveDocs (fetchNavigationStructure groups)
      (fetchAllUrlsFromSitemap locs) fetch (fun _ _ => Except.ok ())).otherFiles =
      collectOtherFiles (fetchNavigationStructure groups)
        (fetchAllUrlsFromSitemap locs) := by
    rw [downloadAndSaveDocs_fields]
  refine ⟨rfl, ?_, ?_⟩
  · show splitNl (generateReadme (fetchNavigationStructure groups)
        (downloadAndSaveDocs (fetchNavigationStructure groups)
          (fetchAllUrlsFromSitemap locs) fetch
          (fun _ _ => Except.ok ())).otherFiles t1).data = _
    rw [hof]
    exact splitNl_generateReadme _ _ t1 h1
  · show splitNl (generateReadme (fetchNavigationStructure groups)
        (downloadAndSaveDocs (fetchNavigationStructure groups)
          (fetchAllUrlsFromSitemap locs) fetch
          (fun _ _ => Except.ok ())).otherFiles t2).data = _
    rw [hof]
    exact splitNl_generateReadme _ _ t2 h2

/-- Witness fixtures for C3: one in-scope sitemap URL categorized, one not. -/
def c3Locs : List String :=
  ["https://docs.anthropic.com/en/docs/claude-code/overview",
   "https://docs.anthropic.com/en/docs/claude-code/extra"]

/-- Witness fixture for C3: a single navigation group. -/
def c3Groups : List NavGroup :=
  [{ titleText := "Getting started",
     links := [{ href := some "/en/docs/claude-code/overview", text := "Overview" }] }]

theorem claim_C3_two_runs_differ_only_in_timestamp_witness :
    hasNoNl ("Mon, 01 Jan 2024 00:00:00 GMT" : String).data = true ∧
    ((runPipeline c3Locs c3Groups (fun _ => Except.ok "BODY")
        "Mon, 01 Jan 2024 00:00:00 GMT").docs =
      (runPipeline c3Locs c3Groups (fun _ => Except.ok "BODY")
        "Tue, 02 Jan 2024 00:00:00 GMT").docs ∧
    splitNl (runPipeline c3Locs c3Groups (fun _ => Except.ok "BODY")
        "Mon, 01 Jan 2024 00:00:00 GMT").readme.data =
      readmeFixedLinesPre ++
        (lastUpdatedLabel.data ++ ("Mon, 01 Jan 2024 00:00:00 GMT" : String).data) ::
        readmeTailLines (fetchNavigationStructure c3Groups)
          (collectOtherFiles (fetchNavigationStructure c3Groups)
            (fetchAllUrlsFromSitemap c3Locs)) ∧
    splitNl (runPipeline c3Locs c3Groups (fun _ => Except.ok "BODY")
        "Tue, 02 Jan 2024 00:00:00 GMT").readme.data =
      readmeFixedLinesPre ++
        (lastUpdatedLabel.data ++ ("Tue, 02 Jan 2024 00:00:00 GMT" : String).data) ::
        readmeTailLines (fetchNavigationStructure c3Groups)
          (collectOtherFiles (fetchNavigationStructure c3Groups)
            (fetchAllUrlsFromSitemap c3Locs))) :=
  ⟨by decide,
   claim_C3_two_runs_differ_only_in_timestamp c3Locs c3Groups
     (fun _ => Except.ok "BODY") "Mon, 01 Jan 2024 00:00:00 GMT"
     "Tue, 02 Jan 2024 00:00:00 GMT" (by decide) (by decide)⟩

/-! ### Claim C4: ordering of directory creations and download requests -/

/-- Formalization of claim C4's ordering property on an issuance trace: every
directory-creation event occurs strictly before every download-request event
(equivalently, no HTTP GET is issued before the last mkdir). -/
def getsAfterMkdirs (tr : List FsEvent) : Prop :=
  ∀ i, i < tr.length → ∀ j, j < tr.length →
    FsEvent.isGetB (tr.getD i (FsEvent.mkdir "")) = true →
    FsEvent.isMkdirB (tr.getD j (FsEvent.mkdir "")) = true → j < i

/-- Counterexample to C4: with two uncategorized URLs the issuance trace is
`[mkdir, GET, mkdir, GET]` — the first URL's GET (index 1) is issued before
the second URL's mkdir (index 2), so not every mkdir completes before every
GET is issued. -/
theorem claim_C4_counterexample :
    ¬ getsAfterMkdirs (downloadTrace [] ["a", "b"]) := by
  intro h
  have h12 := h 1 (by decide) 2 (by decide) (by decide) (by decide)
  omega

theorem downloadTrace_cons (nav : List Category) (u : String) (us : List String) :
    downloadTrace nav (u :: us) =
      FsEvent.mkdir (dirPathFor nav u) :: FsEvent.httpGet (u ++ ".md") ::
        downloadTrace nav us := by
  simp [downloadTrace]

/-- C4 (amended): directory creations are awaited one at a time, and each
URL's directory creation completes before that same URL's download request is
issued; but each URL's request is issued before the next URL's directory
creation — the trace strictly alternates `mkdir(url k)`, `GET(url k + ".md")`
in URL order (so with two or more URLs some GET precedes the last mkdir). -/
theorem claim_C4_amended_mkdir_get_alternate (nav : List Category) :
    ∀ urls : List String,
      (downloadTrace nav urls).length = 2 * urls.length ∧
      ∀ k (hk : k < urls.length),
        (downloadTrace nav urls)[2 * k]? =
          some (FsEvent.mkdir (dirPathFor nav urls[k])) ∧
        (downloadTrace nav urls)[2 * k + 1]? =
          some (FsEvent.httpGet (urls[k] ++ ".md")) := by
  intro urls
  induction urls with
  | nil =>
    exact ⟨rfl, fun k hk => absurd hk (Nat.not_lt_zero k)⟩
  | cons u us ih =>
    constructor
    · rw [downloadTrace_cons]
      simp only [List.length_cons, ih.1]
      omega
    · intro k hk
      cases k with
      | zero => simp [downloadTrace_cons]
      | succ k' =>
        have hk' : k' < us.length := by simpa using hk
        rw [downloadTrace_cons]
        rw [show 2 * (k' + 1) = 2 * k' + 1 + 1 from by omega]
        rw [show 2 * k' + 1 + 1 + 1 = 2 * k' + 1 + 1 + 1 from rfl]
        simp only [List.getElem?_cons_succ, List.getElem_cons_succ]
        exact ih.2 k' hk'

theorem claim_C4_amended_mkdir_get_alternate_witness :
    ((downloadTrace [] ["a", "b"]).length = 2 * (["a", "b"] : List String).length) ∧
    (1 : Nat) < (["a", "b"] : List String).length ∧
    (downloadTrace [] ["a", "b"])[2 * 1]? =
      some (FsEvent.mkdir (dirPathFor [] (["a", "b"] : List String)[1])) ∧
    (downloadTrace [] ["a", "b"])[2 * 1 + 1]? =
      some (FsEvent.httpGet ((["a", "b"] : List String)[1] ++ ".md")) :=
  ⟨(claim_C4_amended_mkdir_get_alternate [] ["a", "b"]).1,
   by decide,
   ((claim_C4_amended_mkdir_get_alternate [] ["a", "b"]).2 1 (by decide)).1,
   ((claim_C4_amended_mkdir_get_alternate [] ["a", "b"]).2 1 (by decide)).2⟩

end UpdateDocs
